import Mathlib

/-!
Verification of the Taguchi loss-curve notebook
(src/taguchi_loss_function_function_development.ipynb).

The numeric core of the notebook consists of two functions,
taguchi_loss_function (two-sided) and one_sided_loss_function, each of
which builds a 500-point sampled loss curve with numpy.linspace, computes
a rounded sample mean, and a slope-at-mean statistic.  We embed that core
over the rationals:

* numpy.linspace(start, stop, 500) is modelled exactly: the i-th point is
  start + i * (stop - start) / 499.
* Python round(x, n) is round-half-to-even at n decimal digits, modelled
  exactly on the rationals by roundTo.
* pandas mean() is the arithmetic mean (listMean) for a non-empty series;
  on an empty series pandas returns NaN rather than raising.  The NaN case
  matters: every comparison against NaN is False, so in the two-sided
  generator the slope chain falls into its else branch and assigns a NaN
  slope (the dict is still returned), while the one-sided generator's
  chain has no else, leaves slope unassigned, and the call raises
  UnboundLocalError at the first later reference to slope.  NaN has no
  rational counterpart, so two embeddings are given: taguchi_loss_function
  and one_sided_loss_function model the non-NaN (non-empty-sample) runs and
  back the claims that hypothesize non-empty data or concern only the
  curve columns; taguchi_loss_function_exec and one_sided_loss_function_exec
  track NaN with Option (none = NaN / call raised) and model the
  empty-sample behavior faithfully.  The notebook performs no explicit
  emptiness or range validation anywhere.
* The standard deviation and the average-loss statistic involve a real
  square root and are not needed by any property considered here; the
  embedded output record carries the mean, the slope-at-mean, and the two
  columns of the loss-curve table.  All plotting code is presentation
  only and is not modelled.
-/

set_option maxRecDepth 8192

/-- Round-half-to-even to the nearest integer, as Python round does. -/
def roundHalfEven (q : ℚ) : ℤ :=
  if q - ⌊q⌋ < 1/2 then ⌊q⌋
  else if 1/2 < q - ⌊q⌋ then ⌊q⌋ + 1
  else if ⌊q⌋ % 2 = 0 then ⌊q⌋ else ⌊q⌋ + 1

/-- Python round(q, n): round-half-to-even at n decimal digits. -/
def roundTo (q : ℚ) (n : ℕ) : ℚ :=
  (roundHalfEven (q * 10 ^ n) : ℚ) / 10 ^ n

/-- numpy.linspace(start, stop, num): num evenly spaced points from start
to stop inclusive. -/
def linspace (start stop : ℚ) (num : ℕ) : List ℚ :=
  (List.range num).map (fun (i : ℕ) => start + (i : ℚ) * ((stop - start) / ((num : ℚ) - 1)))

/-- pandas Series.mean() for a non-empty series: the arithmetic mean.
pandas returns NaN on an empty series; that case has no rational value and
is modelled by pandasRoundedMean below (Lean's 0/0 = 0 here is never
relied upon: every theorem about a statistics field either hypothesizes
non-empty data or is stated over the exec models). -/
def listMean (data : List ℚ) : ℚ := data.sum / (data.length : ℚ)

/-- The output record of either generator: the notebook returns a dict
with a Results table (whose Mean and Slope at Ave. rows are modelled by
the mean and slope fields) and a Loss Curve table (x-values and y-values
columns). -/
structure LossOutput where
  mean : ℚ
  slope : ℚ
  curve_x : List ℚ
  curve_y : List ℚ
deriving Repr, DecidableEq

/-- The per-point loss of the two-sided curve, the body of the for-loop in
taguchi_loss_function:
if value <= LSL: tolerance * (target - LSL) ** 2
elif value >= USL: tolerance * (USL - target) ** 2
else: tolerance * (value - target) ** 2. -/
def taguchi_loss_value (USL LSL target value : ℚ) : ℚ :=
  let tolerance := USL - LSL
  if value ≤ LSL then tolerance * (target - LSL) ^ 2
  else if USL ≤ value then tolerance * (USL - target) ^ 2
  else tolerance * (value - target) ^ 2

/-- The x-values of the two-sided curve:
np.linspace(LSL - spec_buffer, USL + spec_buffer, 500). -/
def taguchi_x_values (USL LSL spec_buffer : ℚ) : List ℚ :=
  linspace (LSL - spec_buffer) (USL + spec_buffer) 500

/-- The numeric core of taguchi_loss_function(data, USL, LSL, ...,
round_value, spec_buffer).  The notebook performs no input validation, so
this is a total function.  tolerance = USL - LSL,
target = round(LSL + tolerance/2, round_value), and the slope is
0 if (mean <= LSL) | (mean >= USL) else
round(tolerance * (mean - target) ** 2, round_value).
This def models the runs whose mean is a number (non-empty sample); the
empty-sample (NaN-mean) run of the source is modelled by
taguchi_loss_function_exec below. -/
def taguchi_loss_function (data : List ℚ) (USL LSL : ℚ) (round_value : ℕ)
    (spec_buffer : ℚ) : LossOutput :=
  let x_values := taguchi_x_values USL LSL spec_buffer
  let tolerance := USL - LSL
  let target := roundTo (LSL + tolerance / 2) round_value
  let mean := roundTo (listMean data) round_value
  let slope :=
    if mean ≤ LSL ∨ USL ≤ mean then 0
    else roundTo (tolerance * (mean - target) ^ 2) round_value
  { mean := mean
    slope := slope
    curve_x := x_values
    curve_y := x_values.map (taguchi_loss_value USL LSL target) }

/-- The per-point loss of the one-sided curve, the body of the for-loop in
one_sided_loss_function:
if value >= spec_limit: tolerance * (spec_limit - target) ** 2
elif value <= target: 0
else: tolerance * max(0, (value - target) ** 2). -/
def one_sided_loss_value (target spec_limit value : ℚ) : ℚ :=
  let tolerance := spec_limit - target
  if spec_limit ≤ value then tolerance * (spec_limit - target) ^ 2
  else if value ≤ target then 0
  else tolerance * max 0 ((value - target) ^ 2)

/-- The x-values of the one-sided curve:
np.linspace(target - below_target, spec_limit + past_spec, 500). -/
def one_sided_x_values (target spec_limit below_target past_spec : ℚ) : List ℚ :=
  linspace (target - below_target) (spec_limit + past_spec) 500

/-- The numeric core of one_sided_loss_function(data, target, spec_limit,
..., round_value, below_target, past_spec).  No input validation in the
source.  tolerance = spec_limit - target; the slope branch chain is
if mean <= target: 0
elif target < mean <= spec_limit: tolerance * (mean - target) ** 2
elif spec_limit < mean: 0
which is exhaustive by trichotomy over the rationals, so the final else of
the embedding is that last branch.  The chain is NOT exhaustive for a NaN
mean (empty sample): no branch assigns slope and the source call raises
UnboundLocalError; that run is modelled by one_sided_loss_function_exec
below, while this def models the non-empty-sample runs. -/
def one_sided_loss_function (data : List ℚ) (target spec_limit : ℚ)
    (round_value : ℕ) (below_target past_spec : ℚ) : LossOutput :=
  let x_values := one_sided_x_values target spec_limit below_target past_spec
  let tolerance := spec_limit - target
  let mean := roundTo (listMean data) round_value
  let slope :=
    if mean ≤ target then 0
    else if target < mean ∧ mean ≤ spec_limit then tolerance * (mean - target) ^ 2
    else 0
  { mean := mean
    slope := slope
    curve_x := x_values
    curve_y := x_values.map (one_sided_loss_value target spec_limit) }

/-- round(data.mean(), round_value) as the source computes it: pandas
mean() of an empty series is NaN and Python round(NaN, n) is NaN, modelled
as none; for a non-empty series it is the rounded arithmetic mean. -/
def pandasRoundedMean (data : List ℚ) (round_value : ℕ) : Option ℚ :=
  if data = [] then none else some (roundTo (listMean data) round_value)

/-- Output record over the pandas value domain: mean and slope may be NaN
(none), as happens for an empty sample. -/
structure LossOutputNan where
  mean : Option ℚ
  slope : Option ℚ
  curve_x : List ℚ
  curve_y : List ℚ
deriving Repr, DecidableEq

/-- The two-sided generator including the empty-sample run.  With a NaN
mean both comparisons in (mean <= LSL) | (mean >= USL) are False, so the
else branch assigns slope = round(tolerance * (NaN - target) ** 2) = NaN
and the dict is still returned: the curve columns are produced either way
and the statistics are NaN (none) exactly when the sample is empty. -/
def taguchi_loss_function_exec (data : List ℚ) (USL LSL : ℚ) (round_value : ℕ)
    (spec_buffer : ℚ) : LossOutputNan :=
  let x_values := taguchi_x_values USL LSL spec_buffer
  let tolerance := USL - LSL
  let target := roundTo (LSL + tolerance / 2) round_value
  let slope :=
    match pandasRoundedMean data round_value with
    | none => none
    | some m =>
      some (if m ≤ LSL ∨ USL ≤ m then 0
        else roundTo (tolerance * (m - target) ^ 2) round_value)
  { mean := pandasRoundedMean data round_value
    slope := slope
    curve_x := x_values
    curve_y := x_values.map (taguchi_loss_value USL LSL target) }

/-- The one-sided generator including the empty-sample run.  With a NaN
mean all three comparisons of the slope chain are False and the chain has
no else, so slope is never assigned; the first later reference to slope
(the mean scatterplot, or the Results table built unconditionally before
the return) raises UnboundLocalError and the call returns nothing,
modelled by none.  For a numeric mean the source returns the dict with the
chain's value. -/
def one_sided_loss_function_exec (data : List ℚ) (target spec_limit : ℚ)
    (round_value : ℕ) (below_target past_spec : ℚ) : Option LossOutputNan :=
  let x_values := one_sided_x_values target spec_limit below_target past_spec
  let tolerance := spec_limit - target
  match pandasRoundedMean data round_value with
  | none => none
  | some m =>
    some { mean := some m
           slope := some (if m ≤ target then 0
             else if target < m ∧ m ≤ spec_limit then tolerance * (m - target) ^ 2
             else 0)
           curve_x := x_values
           curve_y := x_values.map (one_sided_loss_value target spec_limit) }

/-- Helper: every pair of a list zipped with its own image under f relates
by f. -/
theorem mem_zip_map {α β : Type} (f : α → β) (l : List α) :
    ∀ p ∈ l.zip (l.map f), p.2 = f p.1 := by
  induction l with
  | nil => intro p hp; simp at hp
  | cons a t ih =>
    intro p hp
    simp only [List.map_cons, List.zip_cons_cons, List.mem_cons] at hp
    rcases hp with h | h
    · subst h; rfl
    · exact ih p h

theorem linspace_length (start stop : ℚ) (num : ℕ) :
    (linspace start stop num).length = num := by
  rw [linspace, List.length_map, List.length_range]

theorem taguchi_lengths (data : List ℚ) (USL LSL : ℚ) (round_value : ℕ)
    (spec_buffer : ℚ) :
    (taguchi_loss_function data USL LSL round_value spec_buffer).curve_x.length = 500 ∧
    (taguchi_loss_function data USL LSL round_value spec_buffer).curve_y.length = 500 := by
  constructor
  · exact linspace_length _ _ 500
  · simp only [taguchi_loss_function, List.length_map]
    exact linspace_length _ _ 500

theorem one_sided_lengths (data : List ℚ) (target spec_limit : ℚ) (round_value : ℕ)
    (below_target past_spec : ℚ) :
    (one_sided_loss_function data target spec_limit round_value below_target
        past_spec).curve_x.length = 500 ∧
    (one_sided_loss_function data target spec_limit round_value below_target
        past_spec).curve_y.length = 500 := by
  constructor
  · exact linspace_length _ _ 500
  · simp only [one_sided_loss_function, List.length_map]
    exact linspace_length _ _ 500

/-- C1: for every sample set, USL, LSL with USL > LSL, buffer and precision,
the two-sided generator derives tolerance = USL - LSL and
target = round(LSL + tolerance/2, precision), and each x-value of its curve
is paired with loss = tolerance * (target - LSL)^2 when x ≤ LSL,
tolerance * (USL - target)^2 when x ≥ USL, and tolerance * (x - target)^2
otherwise. -/
theorem two_sided_curve_pointwise (data : List ℚ) (USL LSL : ℚ) (round_value : ℕ)
    (spec_buffer : ℚ) (h : LSL < USL) :
    ∀ p ∈ (taguchi_loss_function data USL LSL round_value spec_buffer).curve_x.zip
        (taguchi_loss_function data USL LSL round_value spec_buffer).curve_y,
      (p.1 ≤ LSL →
        p.2 = (USL - LSL) * (roundTo (LSL + (USL - LSL) / 2) round_value - LSL) ^ 2) ∧
      (USL ≤ p.1 →
        p.2 = (USL - LSL) * (USL - roundTo (LSL + (USL - LSL) / 2) round_value) ^ 2) ∧
      (LSL < p.1 → p.1 < USL →
        p.2 = (USL - LSL) * (p.1 - roundTo (LSL + (USL - LSL) / 2) round_value) ^ 2) := by
  intro p hp
  have hm : p.2 = taguchi_loss_value USL LSL
      (roundTo (LSL + (USL - LSL) / 2) round_value) p.1 :=
    mem_zip_map (taguchi_loss_value USL LSL (roundTo (LSL + (USL - LSL) / 2) round_value))
      (taguchi_x_values USL LSL spec_buffer) p hp
  rw [hm]
  simp only [taguchi_loss_value]
  refine ⟨?_, ?_, ?_⟩
  · intro h1
    rw [if_pos h1]
  · intro h1
    rw [if_neg (by linarith), if_pos h1]
  · intro h1 h2
    rw [if_neg (by linarith), if_neg (by linarith)]

theorem two_sided_curve_pointwise_witness :
    (10 : ℚ) < 20 ∧
    ∀ p ∈ (taguchi_loss_function [1] 20 10 1 2).curve_x.zip
        (taguchi_loss_function [1] 20 10 1 2).curve_y,
      (p.1 ≤ 10 → p.2 = (20 - 10) * (roundTo (10 + (20 - 10) / 2) 1 - 10) ^ 2) ∧
      (20 ≤ p.1 → p.2 = (20 - 10) * (20 - roundTo (10 + (20 - 10) / 2) 1) ^ 2) ∧
      (10 < p.1 → p.1 < 20 →
        p.2 = (20 - 10) * (p.1 - roundTo (10 + (20 - 10) / 2) 1) ^ 2) :=
  ⟨by norm_num, two_sided_curve_pointwise [1] 20 10 1 2 (by norm_num)⟩

/-- C2: for every target and specification limit with spec_limit > target,
each x-value of the one-sided curve is paired with loss = 0 when x ≤ target,
the flat cap tolerance * (spec_limit - target)^2 when x ≥ spec_limit, and
tolerance * max(0, (x - target)^2) for target < x < spec_limit, where
tolerance = spec_limit - target. -/
theorem one_sided_curve_pointwise (data : List ℚ) (target spec_limit : ℚ)
    (round_value : ℕ) (below_target past_spec : ℚ) (h : target < spec_limit) :
    ∀ p ∈ (one_sided_loss_function data target spec_limit round_value below_target
          past_spec).curve_x.zip
        (one_sided_loss_function data target spec_limit round_value below_target
          past_spec).curve_y,
      (p.1 ≤ target → p.2 = 0) ∧
      (spec_limit ≤ p.1 → p.2 = (spec_limit - target) * (spec_limit - target) ^ 2) ∧
      (target < p.1 → p.1 < spec_limit →
        p.2 = (spec_limit - target) * max 0 ((p.1 - target) ^ 2)) := by
  intro p hp
  have hm : p.2 = one_sided_loss_value target spec_limit p.1 :=
    mem_zip_map (one_sided_loss_value target spec_limit)
      (one_sided_x_values target spec_limit below_target past_spec) p hp
  rw [hm]
  simp only [one_sided_loss_value]
  refine ⟨?_, ?_, ?_⟩
  · intro h1
    rw [if_neg (by linarith), if_pos h1]
  · intro h1
    rw [if_pos h1]
  · intro h1 h2
    rw [if_neg (by linarith), if_neg (by linarith)]

theorem one_sided_curve_pointwise_witness :
    (0 : ℚ) < 10 ∧
    ∀ p ∈ (one_sided_loss_function [1] 0 10 1 5 5).curve_x.zip
        (one_sided_loss_function [1] 0 10 1 5 5).curve_y,
      (p.1 ≤ 0 → p.2 = 0) ∧
      (10 ≤ p.1 → p.2 = (10 - 0) * (10 - 0) ^ 2) ∧
      (0 < p.1 → p.1 < 10 → p.2 = (10 - 0) * max 0 ((p.1 - 0) ^ 2)) :=
  ⟨by norm_num, one_sided_curve_pointwise [1] 0 10 1 5 5 (by norm_num)⟩

/-- C4: in the two-sided generator, for every non-empty sample set with
rounded mean m, the reported slope-at-mean is 0 when m ≤ LSL or m ≥ USL
(means exactly on a specification limit get slope 0), and
round(tolerance * (m - target)^2, precision) when LSL < m < USL. -/
theorem two_sided_slope_at_mean (data : List ℚ) (USL LSL : ℚ) (round_value : ℕ)
    (spec_buffer : ℚ) (hdata : data ≠ []) :
    ((taguchi_loss_function data USL LSL round_value spec_buffer).mean ≤ LSL ∨
        USL ≤ (taguchi_loss_function data USL LSL round_value spec_buffer).mean →
      (taguchi_loss_function data USL LSL round_value spec_buffer).slope = 0) ∧
    (LSL < (taguchi_loss_function data USL LSL round_value spec_buffer).mean →
      (taguchi_loss_function data USL LSL round_value spec_buffer).mean < USL →
      (taguchi_loss_function data USL LSL round_value spec_buffer).slope =
        roundTo ((USL - LSL) *
          ((taguchi_loss_function data USL LSL round_value spec_buffer).mean -
            roundTo (LSL + (USL - LSL) / 2) round_value) ^ 2) round_value) := by
  have es : (taguchi_loss_function data USL LSL round_value spec_buffer).slope =
      (if roundTo (listMean data) round_value ≤ LSL ∨
          USL ≤ roundTo (listMean data) round_value then 0
        else roundTo ((USL - LSL) *
          (roundTo (listMean data) round_value -
            roundTo (LSL + (USL - LSL) / 2) round_value) ^ 2) round_value) := rfl
  constructor
  · intro h
    have h2 : roundTo (listMean data) round_value ≤ LSL ∨
        USL ≤ roundTo (listMean data) round_value := h
    rw [es, if_pos h2]
  · intro ha hb
    have ha2 : LSL < roundTo (listMean data) round_value := ha
    have hb2 : roundTo (listMean data) round_value < USL := hb
    have hc : ¬(roundTo (listMean data) round_value ≤ LSL ∨
        USL ≤ roundTo (listMean data) round_value) := by
      push_neg
      exact ⟨ha2, hb2⟩
    have : (taguchi_loss_function data USL LSL round_value spec_buffer).slope =
        roundTo ((USL - LSL) *
          (roundTo (listMean data) round_value -
            roundTo (LSL + (USL - LSL) / 2) round_value) ^ 2) round_value := by
      rw [es, if_neg hc]
    exact this

theorem two_sided_slope_at_mean_witness :
    ([(15 : ℚ)] ≠ [] ∧ True) ∧
    (((taguchi_loss_function [15] 20 10 1 2).mean ≤ 10 ∨
        20 ≤ (taguchi_loss_function [15] 20 10 1 2).mean →
      (taguchi_loss_function [15] 20 10 1 2).slope = 0) ∧
    (10 < (taguchi_loss_function [15] 20 10 1 2).mean →
      (taguchi_loss_function [15] 20 10 1 2).mean < 20 →
      (taguchi_loss_function [15] 20 10 1 2).slope =
        roundTo ((20 - 10) *
          ((taguchi_loss_function [15] 20 10 1 2).mean -
            roundTo (10 + (20 - 10) / 2) 1) ^ 2) 1)) :=
  ⟨⟨by simp, trivial⟩, two_sided_slope_at_mean [15] 20 10 1 2 (by simp)⟩

/-- C5: in the one-sided generator, for every non-empty sample set with
rounded mean m and tolerance = spec_limit - target, the reported
slope-at-mean is 0 when m ≤ target, tolerance * (m - target)^2 when
target < m ≤ spec_limit, and 0 when m > spec_limit. -/
theorem one_sided_slope_at_mean (data : List ℚ) (target spec_limit : ℚ)
    (round_value : ℕ) (below_target past_spec : ℚ) (hdata : data ≠ []) :
    ((one_sided_loss_function data target spec_limit round_value below_target
          past_spec).mean ≤ target →
      (one_sided_loss_function data target spec_limit round_value below_target
          past_spec).slope = 0) ∧
    (target < (one_sided_loss_function data target spec_limit round_value below_target
          past_spec).mean →
      (one_sided_loss_function data target spec_limit round_value below_target
          past_spec).mean ≤ spec_limit →
      (one_sided_loss_function data target spec_limit round_value below_target
          past_spec).slope =
        (spec_limit - target) *
          ((one_sided_loss_function data target spec_limit round_value below_target
            past_spec).mean - target) ^ 2) ∧
    (spec_limit < (one_sided_loss_function data target spec_limit round_value below_target
          past_spec).mean →
      (one_sided_loss_function data target spec_limit round_value below_target
          past_spec).slope = 0) := by
  have es : (one_sided_loss_function data target spec_limit round_value below_target
      past_spec).slope =
      (if roundTo (listMean data) round_value ≤ target then 0
        else if target < roundTo (listMean data) round_value ∧
            roundTo (listMean data) round_value ≤ spec_limit then
          (spec_limit - target) * (roundTo (listMean data) round_value - target) ^ 2
        else 0) := rfl
  refine ⟨?_, ?_, ?_⟩
  · intro h
    have h2 : roundTo (listMean data) round_value ≤ target := h
    rw [es, if_pos h2]
  · intro ha hb
    have ha2 : target < roundTo (listMean data) round_value := ha
    have hb2 : roundTo (listMean data) round_value ≤ spec_limit := hb
    have : (one_sided_loss_function data target spec_limit round_value below_target
        past_spec).slope =
        (spec_limit - target) * (roundTo (listMean data) round_value - target) ^ 2 := by
      rw [es, if_neg (not_le.mpr ha2), if_pos ⟨ha2, hb2⟩]
    exact this
  · intro h
    have h2 : spec_limit < roundTo (listMean data) round_value := h
    by_cases hc : roundTo (listMean data) round_value ≤ target
    · rw [es, if_pos hc]
    · have hd : ¬(target < roundTo (listMean data) round_value ∧
          roundTo (listMean data) round_value ≤ spec_limit) := by
        rintro ⟨-, hd2⟩
        exact absurd h2 (not_lt.mpr hd2)
      rw [es, if_neg hc, if_neg hd]

theorem one_sided_slope_at_mean_witness :
    ([(5 : ℚ)] ≠ [] ∧ True) ∧
    (((one_sided_loss_function [5] 0 10 1 5 5).mean ≤ 0 →
      (one_sided_loss_function [5] 0 10 1 5 5).slope = 0) ∧
    (0 < (one_sided_loss_function [5] 0 10 1 5 5).mean →
      (one_sided_loss_function [5] 0 10 1 5 5).mean ≤ 10 →
      (one_sided_loss_function [5] 0 10 1 5 5).slope =
        (10 - 0) * ((one_sided_loss_function [5] 0 10 1 5 5).mean - 0) ^ 2) ∧
    (10 < (one_sided_loss_function [5] 0 10 1 5 5).mean →
      (one_sided_loss_function [5] 0 10 1 5 5).slope = 0)) :=
  ⟨⟨by simp, trivial⟩, one_sided_slope_at_mean [5] 0 10 1 5 5 (by simp)⟩

/-- C6 counterexample: with target 0, spec_limit 10 and sample [10] the
rounded mean equals the specification limit exactly, yet the reported
slope is tolerance * (mean - target)^2 = 1000, not 0: the branch
target < mean <= spec_limit wins for equality. -/
theorem one_sided_mean_at_limit_counterexample :
    (one_sided_loss_function [10] 0 10 1 5 5).mean = 10 ∧
    (one_sided_loss_function [10] 0 10 1 5 5).slope = 1000 ∧
    (one_sided_loss_function [10] 0 10 1 5 5).slope ≠ 0 := by
  have hm : (one_sided_loss_function [10] 0 10 1 5 5).mean = 10 := by
    show roundTo (listMean [10]) 1 = 10
    norm_num [roundTo, roundHalfEven, listMean]
  have hs : (one_sided_loss_function [10] 0 10 1 5 5).slope = 1000 := by
    show (if roundTo (listMean [10]) 1 ≤ 0 then 0
      else if 0 < roundTo (listMean [10]) 1 ∧ roundTo (listMean [10]) 1 ≤ 10 then
        (10 - 0) * (roundTo (listMean [10]) 1 - 0) ^ 2
      else 0) = 1000
    have h10 : roundTo (listMean [10]) 1 = 10 := by
      norm_num [roundTo, roundHalfEven, listMean]
    rw [h10]
    norm_num
  exact ⟨hm, hs, by rw [hs]; norm_num⟩

/-- C6 amended: in the one-sided generator, when the rounded sample mean
equals the specification limit exactly, the branch
target < mean <= spec_limit wins, so the reported slope-at-mean is
tolerance * (spec_limit - target)^2, which is strictly positive whenever
spec_limit > target. -/
theorem one_sided_slope_at_spec_limit (data : List ℚ) (target spec_limit : ℚ)
    (round_value : ℕ) (below_target past_spec : ℚ) (hdata : data ≠ [])
    (h : target < spec_limit)
    (hm : (one_sided_loss_function data target spec_limit round_value below_target
        past_spec).mean = spec_limit) :
    (one_sided_loss_function data target spec_limit round_value below_target
        past_spec).slope = (spec_limit - target) * (spec_limit - target) ^ 2 ∧
    0 < (one_sided_loss_function data target spec_limit round_value below_target
        past_spec).slope := by
  have hm2 : roundTo (listMean data) round_value = spec_limit := hm
  have es : (one_sided_loss_function data target spec_limit round_value below_target
      past_spec).slope =
      (if roundTo (listMean data) round_value ≤ target then 0
        else if target < roundTo (listMean data) round_value ∧
            roundTo (listMean data) round_value ≤ spec_limit then
          (spec_limit - target) * (roundTo (listMean data) round_value - target) ^ 2
        else 0) := rfl
  have hs : (one_sided_loss_function data target spec_limit round_value below_target
      past_spec).slope = (spec_limit - target) * (spec_limit - target) ^ 2 := by
    rw [es, hm2, if_neg (not_le.mpr h), if_pos ⟨h, le_refl spec_limit⟩]
  have h0 : 0 < spec_limit - target := sub_pos.mpr h
  exact ⟨hs, by rw [hs]; exact mul_pos h0 (pow_pos h0 2)⟩

theorem one_sided_slope_at_spec_limit_witness :
    ([(10 : ℚ)] ≠ [] ∧ (0 : ℚ) < 10 ∧
      (one_sided_loss_function [10] 0 10 1 5 5).mean = 10) ∧
    ((one_sided_loss_function [10] 0 10 1 5 5).slope = (10 - 0) * (10 - 0) ^ 2 ∧
      0 < (one_sided_loss_function [10] 0 10 1 5 5).slope) := by
  have hm : (one_sided_loss_function [10] 0 10 1 5 5).mean = 10 := by
    show roundTo (listMean [10]) 1 = 10
    norm_num [roundTo, roundHalfEven, listMean]
  exact ⟨⟨by simp, by norm_num, hm⟩,
    one_sided_slope_at_spec_limit [10] 0 10 1 5 5 (by simp) (by norm_num) hm⟩

/-- C7 counterexample: with LSL 0, USL 1/4, precision 1 and the default
buffer 2, the rounded target is 1/10, not the midpoint 1/8, and for the
offset d = 3/10 both target - d and target + d lie in the sampled domain
[LSL - 2, USL + 2] yet their losses differ: the curve is not symmetric
around the target. -/
theorem two_sided_symmetry_counterexample :
    ((0 : ℚ) - 2 ≤ roundTo (0 + (1/4 - 0) / 2) 1 - 3/10) ∧
    (roundTo (0 + (1/4 - 0) / 2) 1 - 3/10 ≤ 1/4 + 2) ∧
    ((0 : ℚ) - 2 ≤ roundTo (0 + (1/4 - 0) / 2) 1 + 3/10) ∧
    (roundTo (0 + (1/4 - 0) / 2) 1 + 3/10 ≤ 1/4 + 2) ∧
    taguchi_loss_value (1/4) 0 (roundTo (0 + (1/4 - 0) / 2) 1)
        (roundTo (0 + (1/4 - 0) / 2) 1 - 3/10) ≠
      taguchi_loss_value (1/4) 0 (roundTo (0 + (1/4 - 0) / 2) 1)
        (roundTo (0 + (1/4 - 0) / 2) 1 + 3/10) := by
  have ht : roundTo (0 + (1/4 - 0) / 2) 1 = 1/10 := by
    norm_num [roundTo, roundHalfEven]
  rw [ht]
  norm_num [taguchi_loss_value]

/-- C7 amended: the two-sided curve (whose y-values are exactly
taguchi_loss_value applied to its x-values) is always flat outside
[LSL, USL], each flat region constant and equal to its boundary value; it
is symmetric around the target for every offset whenever the rounded
target equals the exact midpoint LSL + (USL - LSL)/2 (rounding can move
the target off the midpoint, and then symmetry can fail). -/
theorem two_sided_symmetry_and_flat (USL LSL : ℚ) (round_value : ℕ) (target : ℚ)
    (h : LSL < USL)
    (htgt : target = roundTo (LSL + (USL - LSL) / 2) round_value) :
    (∀ (data : List ℚ) (spec_buffer : ℚ),
      (taguchi_loss_function data USL LSL round_value spec_buffer).curve_y =
        (taguchi_loss_function data USL LSL round_value spec_buffer).curve_x.map
          (taguchi_loss_value USL LSL target)) ∧
    (target = LSL + (USL - LSL) / 2 →
      ∀ d : ℚ, taguchi_loss_value USL LSL target (target - d) =
        taguchi_loss_value USL LSL target (target + d)) ∧
    (∀ x : ℚ, x ≤ LSL →
      taguchi_loss_value USL LSL target x = taguchi_loss_value USL LSL target LSL) ∧
    (∀ x : ℚ, USL ≤ x →
      taguchi_loss_value USL LSL target x = taguchi_loss_value USL LSL target USL) := by
  refine ⟨?_, ?_, ?_, ?_⟩
  · intro data spec_buffer
    rw [htgt]
    rfl
  · intro hmid d
    rw [hmid]
    simp only [taguchi_loss_value]
    split_ifs <;> first | ring1 | (exfalso; linarith)
  · intro x hx
    simp only [taguchi_loss_value]
    rw [if_pos hx, if_pos le_rfl]
  · intro x hx
    simp only [taguchi_loss_value]
    rw [if_neg (by linarith), if_pos hx, if_neg (by linarith), if_pos le_rfl]

theorem two_sided_symmetry_and_flat_witness :
    ((10 : ℚ) < 20 ∧ (15 : ℚ) = roundTo (10 + (20 - 10) / 2) 1) ∧
    ((∀ (data : List ℚ) (spec_buffer : ℚ),
      (taguchi_loss_function data 20 10 1 spec_buffer).curve_y =
        (taguchi_loss_function data 20 10 1 spec_buffer).curve_x.map
          (taguchi_loss_value 20 10 15)) ∧
    ((15 : ℚ) = 10 + (20 - 10) / 2 →
      ∀ d : ℚ, taguchi_loss_value 20 10 15 (15 - d) =
        taguchi_loss_value 20 10 15 (15 + d)) ∧
    (∀ x : ℚ, x ≤ 10 →
      taguchi_loss_value 20 10 15 x = taguchi_loss_value 20 10 15 10) ∧
    (∀ x : ℚ, 20 ≤ x →
      taguchi_loss_value 20 10 15 x = taguchi_loss_value 20 10 15 20)) := by
  have ht : (15 : ℚ) = roundTo (10 + (20 - 10) / 2) 1 := by
    norm_num [roundTo, roundHalfEven]
  exact ⟨⟨by norm_num, ht⟩, two_sided_symmetry_and_flat 20 10 1 15 (by norm_num) ht⟩

/-- C8: for every valid input (USL > LSL two-sided, spec_limit > target
one-sided) every y-value of the returned loss-curve table of either
generator is non-negative. -/
theorem loss_curves_nonneg (dataA dataB : List ℚ) (USL LSL target spec_limit : ℚ)
    (p q : ℕ) (buf below_target past_spec : ℚ)
    (h1 : LSL < USL) (h2 : target < spec_limit) :
    (∀ y ∈ (taguchi_loss_function dataA USL LSL p buf).curve_y, 0 ≤ y) ∧
    (∀ y ∈ (one_sided_loss_function dataB target spec_limit q below_target
        past_spec).curve_y, 0 ≤ y) := by
  constructor
  · intro y hy
    simp only [taguchi_loss_function] at hy
    rcases List.mem_map.mp hy with ⟨x, hx, rfl⟩
    simp only [taguchi_loss_value]
    have h0 : (0 : ℚ) ≤ USL - LSL := by linarith
    split_ifs
    · exact mul_nonneg h0 (sq_nonneg _)
    · exact mul_nonneg h0 (sq_nonneg _)
    · exact mul_nonneg h0 (sq_nonneg _)
  · intro y hy
    simp only [one_sided_loss_function] at hy
    rcases List.mem_map.mp hy with ⟨x, hx, rfl⟩
    simp only [one_sided_loss_value]
    have h0 : (0 : ℚ) ≤ spec_limit - target := by linarith
    split_ifs
    · exact mul_nonneg h0 (sq_nonneg _)
    · exact le_refl 0
    · exact mul_nonneg h0 (le_max_left 0 _)

theorem loss_curves_nonneg_witness :
    ((10 : ℚ) < 20 ∧ (0 : ℚ) < 10) ∧
    ((∀ y ∈ (taguchi_loss_function [15] 20 10 1 2).curve_y, 0 ≤ y) ∧
      (∀ y ∈ (one_sided_loss_function [5] 0 10 1 5 5).curve_y, 0 ≤ y)) :=
  ⟨⟨by norm_num, by norm_num⟩,
    loss_curves_nonneg [15] [5] 20 10 0 10 1 1 2 5 5 (by norm_num) (by norm_num)⟩

/-- C10: for either generator, two invocations with the same bounds,
margins and precision but different non-empty sample sets return identical
loss-curve tables of 500 points: the curve does not depend on the data. -/
theorem curves_independent_of_data (d1 d2 e1 e2 : List ℚ)
    (USL LSL target spec_limit : ℚ) (p q : ℕ) (buf below_target past_spec : ℚ)
    (h1 : d1 ≠ []) (h2 : d2 ≠ []) (h3 : e1 ≠ []) (h4 : e2 ≠ []) :
    ((taguchi_loss_function d1 USL LSL p buf).curve_x =
        (taguchi_loss_function d2 USL LSL p buf).curve_x ∧
      (taguchi_loss_function d1 USL LSL p buf).curve_y =
        (taguchi_loss_function d2 USL LSL p buf).curve_y ∧
      (taguchi_loss_function d1 USL LSL p buf).curve_x.length = 500 ∧
      (taguchi_loss_function d1 USL LSL p buf).curve_y.length = 500) ∧
    ((one_sided_loss_function e1 target spec_limit q below_target past_spec).curve_x =
        (one_sided_loss_function e2 target spec_limit q below_target past_spec).curve_x ∧
      (one_sided_loss_function e1 target spec_limit q below_target past_spec).curve_y =
        (one_sided_loss_function e2 target spec_limit q below_target past_spec).curve_y ∧
      (one_sided_loss_function e1 target spec_limit q below_target
          past_spec).curve_x.length = 500 ∧
      (one_sided_loss_function e1 target spec_limit q below_target
          past_spec).curve_y.length = 500) :=
  ⟨⟨rfl, rfl, (taguchi_lengths d1 USL LSL p buf).1, (taguchi_lengths d1 USL LSL p buf).2⟩,
    ⟨rfl, rfl, (one_sided_lengths e1 target spec_limit q below_target past_spec).1,
      (one_sided_lengths e1 target spec_limit q below_target past_spec).2⟩⟩

theorem curves_independent_of_data_witness :
    ([(1 : ℚ)] ≠ [] ∧ [(2 : ℚ), 3] ≠ [] ∧ [(4 : ℚ)] ≠ [] ∧ [(5 : ℚ), 6] ≠ []) ∧
    (((taguchi_loss_function [1] 20 10 1 2).curve_x =
        (taguchi_loss_function [2, 3] 20 10 1 2).curve_x ∧
      (taguchi_loss_function [1] 20 10 1 2).curve_y =
        (taguchi_loss_function [2, 3] 20 10 1 2).curve_y ∧
      (taguchi_loss_function [1] 20 10 1 2).curve_x.length = 500 ∧
      (taguchi_loss_function [1] 20 10 1 2).curve_y.length = 500) ∧
    ((one_sided_loss_function [4] 0 10 1 5 5).curve_x =
        (one_sided_loss_function [5, 6] 0 10 1 5 5).curve_x ∧
      (one_sided_loss_function [4] 0 10 1 5 5).curve_y =
        (one_sided_loss_function [5, 6] 0 10 1 5 5).curve_y ∧
      (one_sided_loss_function [4] 0 10 1 5 5).curve_x.length = 500 ∧
      (one_sided_loss_function [4] 0 10 1 5 5).curve_y.length = 500)) :=
  ⟨⟨by simp, by simp, by simp, by simp⟩,
    curves_independent_of_data [1] [2, 3] [4] [5, 6] 20 10 0 10 1 1 2 5 5
      (by simp) (by simp) (by simp) (by simp)⟩

/-- C3 counterexample: with USL 5 < LSL 10 the two-sided generator raises
nothing and returns a full 500-point curve containing the negative loss
value -125/4, and with target 10 > spec_limit 5 the one-sided generator
likewise returns a full 500-point curve containing -125: there is no
InvalidRange check anywhere in the source. -/
theorem invalid_range_no_error_counterexample :
    ((5 : ℚ) ≤ 10 ∧
      (taguchi_loss_function [1] 5 10 1 2).curve_y.length = 500 ∧
      (-125/4 : ℚ) ∈ (taguchi_loss_function [1] 5 10 1 2).curve_y) ∧
    ((5 : ℚ) ≤ 10 ∧
      (one_sided_loss_function [1] 10 5 1 5 5).curve_y.length = 500 ∧
      (-125 : ℚ) ∈ (one_sided_loss_function [1] 10 5 1 5 5).curve_y) := by
  refine ⟨⟨by norm_num, (taguchi_lengths [1] 5 10 1 2).2, ?_⟩,
    ⟨by norm_num, (one_sided_lengths [1] 10 5 1 5 5).2, ?_⟩⟩
  · show (-125/4 : ℚ) ∈ (taguchi_x_values 5 10 2).map
      (taguchi_loss_value 5 10 (roundTo (10 + (5 - 10) / 2) 1))
    refine List.mem_map.mpr ⟨8, ?_, ?_⟩
    · rw [taguchi_x_values, linspace]
      refine List.mem_map.mpr ⟨0, ?_, ?_⟩
      · simp
      · norm_num
    · have ht : roundTo (10 + (5 - 10) / 2) 1 = 15/2 := by
        norm_num [roundTo, roundHalfEven]
      rw [ht]
      norm_num [taguchi_loss_value]
  · show (-125 : ℚ) ∈ (one_sided_x_values 10 5 5 5).map (one_sided_loss_value 10 5)
    refine List.mem_map.mpr ⟨5, ?_, ?_⟩
    · rw [one_sided_x_values, linspace]
      refine List.mem_map.mpr ⟨0, ?_, ?_⟩
      · simp
      · norm_num
    · norm_num [one_sided_loss_value]

/-- C3 amended: neither generator validates its range inputs.  With
USL ≤ LSL (resp. spec_limit ≤ target) no error is raised: the computation
proceeds and returns the complete 500-point curve, whose loss values are
then all ≤ 0 because the tolerance factor is non-positive. -/
theorem no_range_validation (dataA dataB : List ℚ) (USL LSL target spec_limit : ℚ)
    (p q : ℕ) (buf below_target past_spec : ℚ)
    (h1 : USL ≤ LSL) (h2 : spec_limit ≤ target) :
    ((taguchi_loss_function dataA USL LSL p buf).curve_y.length = 500 ∧
      ∀ y ∈ (taguchi_loss_function dataA USL LSL p buf).curve_y, y ≤ 0) ∧
    ((one_sided_loss_function dataB target spec_limit q below_target
        past_spec).curve_y.length = 500 ∧
      ∀ y ∈ (one_sided_loss_function dataB target spec_limit q below_target
        past_spec).curve_y, y ≤ 0) := by
  refine ⟨⟨(taguchi_lengths dataA USL LSL p buf).2, ?_⟩,
    ⟨(one_sided_lengths dataB target spec_limit q below_target past_spec).2, ?_⟩⟩
  · intro y hy
    simp only [taguchi_loss_function] at hy
    rcases List.mem_map.mp hy with ⟨x, hx, rfl⟩
    simp only [taguchi_loss_value]
    have h0 : USL - LSL ≤ 0 := by linarith
    split_ifs
    · nlinarith [sq_nonneg (roundTo (LSL + (USL - LSL) / 2) p - LSL)]
    · nlinarith [sq_nonneg (USL - roundTo (LSL + (USL - LSL) / 2) p)]
    · nlinarith [sq_nonneg (x - roundTo (LSL + (USL - LSL) / 2) p)]
  · intro y hy
    simp only [one_sided_loss_function] at hy
    rcases List.mem_map.mp hy with ⟨x, hx, rfl⟩
    simp only [one_sided_loss_value]
    have h0 : spec_limit - target ≤ 0 := by linarith
    split_ifs
    · nlinarith [sq_nonneg (spec_limit - target)]
    · exact le_refl 0
    · nlinarith [le_max_left (0 : ℚ) ((x - target) ^ 2)]

theorem no_range_validation_witness :
    ((5 : ℚ) ≤ 10 ∧ (5 : ℚ) ≤ 10) ∧
    (((taguchi_loss_function [1] 5 10 1 2).curve_y.length = 500 ∧
      ∀ y ∈ (taguchi_loss_function [1] 5 10 1 2).curve_y, y ≤ 0) ∧
    ((one_sided_loss_function [1] 10 5 1 5 5).curve_y.length = 500 ∧
      ∀ y ∈ (one_sided_loss_function [1] 10 5 1 5 5).curve_y, y ≤ 0)) :=
  ⟨⟨by norm_num, by norm_num⟩,
    no_range_validation [1] [1] 5 10 10 5 1 1 2 5 5 (by norm_num) (by norm_num)⟩

/-- Agreement off the NaN path: for a non-empty sample the exec model of
the two-sided generator returns exactly the record of the plain model,
with numeric (some) statistics. -/
theorem taguchi_exec_agrees (data : List ℚ) (USL LSL : ℚ) (round_value : ℕ)
    (spec_buffer : ℚ) (h : data ≠ []) :
    taguchi_loss_function_exec data USL LSL round_value spec_buffer =
      { mean := some ((taguchi_loss_function data USL LSL round_value spec_buffer).mean)
        slope := some ((taguchi_loss_function data USL LSL round_value spec_buffer).slope)
        curve_x := (taguchi_loss_function data USL LSL round_value spec_buffer).curve_x
        curve_y := (taguchi_loss_function data USL LSL round_value spec_buffer).curve_y } := by
  have hm : pandasRoundedMean data round_value =
      some (roundTo (listMean data) round_value) := by
    unfold pandasRoundedMean
    rw [if_neg h]
  unfold taguchi_loss_function_exec
  rw [hm]
  rfl

/-- Agreement off the NaN path: for a non-empty sample the exec model of
the one-sided generator returns (without raising) exactly the record of
the plain model. -/
theorem one_sided_exec_agrees (data : List ℚ) (target spec_limit : ℚ)
    (round_value : ℕ) (below_target past_spec : ℚ) (h : data ≠ []) :
    one_sided_loss_function_exec data target spec_limit round_value below_target
        past_spec =
      some { mean := some ((one_sided_loss_function data target spec_limit round_value
              below_target past_spec).mean)
             slope := some ((one_sided_loss_function data target spec_limit round_value
               below_target past_spec).slope)
             curve_x := (one_sided_loss_function data target spec_limit round_value
               below_target past_spec).curve_x
             curve_y := (one_sided_loss_function data target spec_limit round_value
               below_target past_spec).curve_y } := by
  have hm : pandasRoundedMean data round_value =
      some (roundTo (listMean data) round_value) := by
    unfold pandasRoundedMean
    rw [if_neg h]
  unfold one_sided_loss_function_exec
  rw [hm]
  rfl

/-- C9 counterexample: on an empty sample set the two-sided generator does
not fail at all: it returns its full 500-point loss curve with NaN (none)
mean and slope; and the one-sided generator does fail, but by raising
UnboundLocalError from its unassigned slope (modelled as none, returning
nothing), not by surfacing an EmptySample error before any computation. -/
theorem empty_sample_counterexample :
    (taguchi_loss_function_exec [] 20 10 1 2).curve_y.length = 500 ∧
    (taguchi_loss_function_exec [] 20 10 1 2).mean = none ∧
    (taguchi_loss_function_exec [] 20 10 1 2).slope = none ∧
    one_sided_loss_function_exec [] 0 10 1 5 5 = none := by
  refine ⟨?_, rfl, rfl, rfl⟩
  simp only [taguchi_loss_function_exec, List.length_map]
  exact linspace_length _ _ 500

/-- C9 amended: neither generator checks for an empty sample set.  On an
empty sample the two-sided generator raises nothing and returns the
complete 500-point loss curve with NaN (none) mean and slope.  The
one-sided generator computes its curve and NaN statistics, but its slope
chain has no else branch and every comparison with the NaN mean is False,
so slope is left unassigned and the call raises UnboundLocalError at the
first later reference to slope, returning nothing (none) — an incidental
failure after the computation, not a fail-fast EmptySample error. -/
theorem empty_sample_behavior (USL LSL target spec_limit : ℚ) (p q : ℕ)
    (buf below_target past_spec : ℚ) :
    (taguchi_loss_function_exec [] USL LSL p buf).curve_x.length = 500 ∧
    (taguchi_loss_function_exec [] USL LSL p buf).curve_y.length = 500 ∧
    (taguchi_loss_function_exec [] USL LSL p buf).mean = none ∧
    (taguchi_loss_function_exec [] USL LSL p buf).slope = none ∧
    one_sided_loss_function_exec [] target spec_limit q below_target past_spec =
      none := by
  refine ⟨?_, ?_, rfl, rfl, rfl⟩
  · exact linspace_length _ _ 500
  · simp only [taguchi_loss_function_exec, List.length_map]
    exact linspace_length _ _ 500
